import Mathlib

/-!
Verification of the medinor bulk-import reconciliation engine.

The definitions below are a shallow embedding of the JavaScript source:

* `src/util/clientMigrationCleaner.js` — the three normalizers
  (`cleanCodClient`, `cleanIdentiftri`, `cleanRazonSoci`);
* `src/domains/client/client.validation.js` — `clientObjectSchema`;
* `src/domains/private/client/client.controller.js` — `analyzeClients`
  and `confirmClientMigration`;
* `src/domains/private/client/client.model.js` — the unique-key schema;
* `src/domains/private/product/product.controller.js` — `analyzeProducts`
  and `confirmProductMigration`.

JavaScript values that can reach the normalizers are modelled by the
inductive `JSVal`; strings are Lean `String`s manipulated through their
character lists; the Mongo store is a list of documents, and the bulk
insert with `ordered: false` is a fold that skips documents violating a
unique key, recording them as write errors.
-/

namespace Medinor

/-- Model of a JavaScript runtime value as far as the normalizers can
observe it: a string, a number (modelled as an integer), a boolean,
`null` or `undefined`. -/
inductive JSVal where
  | str (s : String)
  | num (n : Int)
  | bool (b : Bool)
  | null
  | undef
deriving DecidableEq, Repr

/-- JavaScript `String(v)` coercion on the modelled values. -/
def jsString : JSVal → String
  | .str s => s
  | .num n => toString n
  | .bool true => "true"
  | .bool false => "false"
  | .null => "null"
  | .undef => "undefined"

/-- JavaScript truthiness (`!v` is the negation): `""`, `0`, `false`,
`null` and `undefined` are falsy. -/
def jsFalsy : JSVal → Bool
  | .str s => s = ""
  | .num n => n = 0
  | .bool b => !b
  | .null => true
  | .undef => true

/-- Whether the value is a string or a number, the guard used by the two
key normalizers (`typeof raw !== "string" && typeof raw !== "number"`). -/
def isStrOrNum : JSVal → Bool
  | .str _ => true
  | .num _ => true
  | _ => false

/-- ASCII uppercase letter test, the `[A-Z]` character class. -/
def isUpperAlpha (c : Char) : Bool := 65 ≤ c.toNat && c.toNat ≤ 90

/-- ASCII digit test, the `[0-9]` / `\d` character class. -/
def isDigitCh (c : Char) : Bool := 48 ≤ c.toNat && c.toNat ≤ 57

/-- JavaScript `toUpperCase` on one character (ASCII fragment). -/
def jsUpperChar (c : Char) : Char :=
  if 97 ≤ c.toNat ∧ c.toNat ≤ 122 then Char.ofNat (c.toNat - 32) else c

/-- Whitespace test backing the model of JavaScript `trim()`. -/
def isWS (c : Char) : Bool := c = ' ' || c = '\t' || c = '\n' || c = '\r'

/-- Model of JavaScript `trim()` on a character list: drop whitespace
from both ends. -/
def trimChars (l : List Char) : List Char :=
  ((l.dropWhile isWS).reverse.dropWhile isWS).reverse

/-- JavaScript `toUpperCase` on a whole string (character-wise model). -/
def jsUpperStr (s : String) : String := ⟨s.data.map jsUpperChar⟩

/-- JavaScript `trim()` on a whole string. -/
def jsTrim (s : String) : String := ⟨trimChars s.data⟩

/-- Core of `cleanCodClient` on a character list: uppercase, keep only
`[A-Z0-9]` (the `saneado` value), then the letters in order followed by
the digits in order. -/
def cleanCodChars (l : List Char) : List Char :=
  ((l.map jsUpperChar).filter
      (fun c => isUpperAlpha c || isDigitCh c)).filter isUpperAlpha ++
    ((l.map jsUpperChar).filter
      (fun c => isUpperAlpha c || isDigitCh c)).filter isDigitCh

/-- String form of the primary-key normalizer core. -/
def cleanCodStr (s : String) : String := ⟨cleanCodChars s.data⟩

/-- Core of `cleanIdentiftri` on a string: strip every non-digit
(`replace(/\D/g, "")`). -/
def cleanIdentStr (s : String) : String := ⟨s.data.filter isDigitCh⟩

/-- Embedding of `cleanCodClient` (clientMigrationCleaner.js lines 9-17):
non-string, non-number input yields `""`; otherwise the value is coerced
to a string and cleaned. -/
def cleanCodClient (v : JSVal) : String :=
  if isStrOrNum v then cleanCodStr (jsString v) else ""

/-- Embedding of `cleanIdentiftri` (clientMigrationCleaner.js lines
25-28): non-string, non-number input yields `""`; otherwise every
non-digit character of the string coercion is stripped. -/
def cleanIdentiftri (v : JSVal) : String :=
  if isStrOrNum v then cleanIdentStr (jsString v) else ""

/-- Embedding of `cleanRazonSoci` (clientMigrationCleaner.js lines
36-42): `String(raw || "")` is trimmed; an empty result is replaced by
the sentinel, otherwise it is uppercased. -/
def cleanRazonSoci (v : JSVal) : String :=
  let trimmed := jsTrim (jsString (if jsFalsy v then .str "" else v))
  if trimmed = "" then "SIN CARGA INICIAL" else jsUpperStr trimmed

/-! ## Client domain: data model, validation, classification -/

/-- Raw client row as received in the request body: the three fields the
pipeline reads, each an arbitrary JavaScript value. -/
structure RawClient where
  COD_CLIENT : JSVal
  IDENTIFTRI : JSVal
  RAZON_SOCI : JSVal
deriving DecidableEq, Repr

/-- Cleaned client candidate: the three normalized string fields kept
after the cleaning map in `analyzeClients`. -/
structure ClientRec where
  cod_client : String
  identiftri : String
  razon_soci : String
deriving DecidableEq, Repr

/-- The cleaning map of `analyzeClients` (client.controller.js lines
35-40). -/
def cleanRawClient (r : RawClient) : ClientRec :=
  { cod_client := cleanCodClient r.COD_CLIENT
    identiftri := cleanIdentiftri r.IDENTIFTRI
    razon_soci := cleanRazonSoci r.RAZON_SOCI }

/-- Validation error tags, standing for the Joi messages of
`clientObjectSchema` (client.validation.js lines 7-58). -/
inductive ValErr where
  | codRequired
  | codFormat
  | cuitRequired
  | cuitFormat
deriving DecidableEq, Repr

/-- The custom check on `COD_CLIENT`: after re-sanitizing, exactly 3
letters and exactly 3 digits must remain (client.validation.js lines
11-25). -/
def codCheck (s : String) : Bool :=
  let saneado := (s.data.map jsUpperChar).filter (fun c => isUpperAlpha c || isDigitCh c)
  (saneado.filter isUpperAlpha).length = 3 && (saneado.filter isDigitCh).length = 3

/-- The custom check on `IDENTIFTRI`: exactly 11 digits after stripping
non-digits (client.validation.js lines 33-44). -/
def cuitCheck (s : String) : Bool :=
  (s.data.filter isDigitCh).length = 11

/-- Joi validation of a cleaned candidate against `clientObjectSchema`,
abort-early: the first failing check yields its message; `RAZON_SOCI`
allows the empty string, so a cleaned record never fails on it. -/
def clientObjectSchemaErrors (c : ClientRec) : List ValErr :=
  if c.cod_client = "" then [.codRequired]
  else if !codCheck c.cod_client then [.codFormat]
  else if c.identiftri = "" then [.cuitRequired]
  else if !cuitCheck c.identiftri then [.cuitFormat]
  else []

/-- Persisted client document (client.model.js): `cod_client`,
`identiftri` and `username` carry unique indexes. -/
structure ClientDoc where
  cod_client : String
  razon_soci : String
  identiftri : String
  username : String
  password : String
deriving DecidableEq, Repr

/-- Conflict reasons, standing for the three `conflictReason` message
templates of `analyzeClients` with their interpolated key. -/
inductive ConflictReason where
  | cuitInStore (cuit : String)
  | codInFile (cod : String)
  | cuitInFile (cuit : String)
deriving DecidableEq, Repr

/-- Classification outcome of one candidate. -/
inductive Bucket where
  | new
  | current
  | conflicting (r : ConflictReason)
deriving DecidableEq, Repr

/-- The if-chain of `analyzeClients` (client.controller.js lines
96-123): store primary key, store secondary key, in-batch primary key,
in-batch secondary key, else new. -/
def decideBucket (codesDB cuitsDB processedCodes processedCuits : List String)
    (c : ClientRec) : Bucket :=
  if c.cod_client ∈ codesDB then .current
  else if c.identiftri ∈ cuitsDB then .conflicting (.cuitInStore c.identiftri)
  else if c.cod_client ∈ processedCodes then .conflicting (.codInFile c.cod_client)
  else if c.identiftri ∈ processedCuits then .conflicting (.cuitInFile c.identiftri)
  else .new

/-- Mutable state of the classification loop: the three result lists and
the two seen-sets (client.controller.js lines 86-91). -/
structure ClassifyState where
  newClients : List ClientRec
  currentClients : List ClientRec
  conflictingClients : List (ClientRec × ConflictReason)
  processedCodes : List String
  processedCuits : List String
deriving DecidableEq, Repr

/-- Initial classification state: all lists and seen-sets empty. -/
def initClassifyState : ClassifyState := ⟨[], [], [], [], []⟩

/-- One iteration of the classification loop (client.controller.js lines
93-128): push the candidate into the bucket chosen by the if-chain, and
record both keys when it is new. -/
def classifyStep (codesDB cuitsDB : List String) (st : ClassifyState)
    (c : ClientRec) : ClassifyState :=
  match decideBucket codesDB cuitsDB st.processedCodes st.processedCuits c with
  | .current => { st with currentClients := st.currentClients ++ [c] }
  | .conflicting r =>
      { st with conflictingClients := st.conflictingClients ++ [(c, r)] }
  | .new =>
      { st with
        newClients := st.newClients ++ [c]
        processedCodes := st.processedCodes ++ [c.cod_client]
        processedCuits := st.processedCuits ++ [c.identiftri] }

/-- The whole classification loop over the validated candidates. -/
def classifyClients (codesDB cuitsDB : List String)
    (validClients : List ClientRec) : ClassifyState :=
  validClients.foldl (classifyStep codesDB cuitsDB) initClassifyState

/-- The `$or` store query of `analyzeClients` (client.controller.js
lines 76-81): rows whose secondary key is among the batch secondary keys
or whose primary key is among the batch primary keys. -/
def clientsInDB (db : List ClientDoc) (validClients : List ClientRec) :
    List ClientDoc :=
  db.filter (fun r =>
    decide (r.identiftri ∈ validClients.map ClientRec.identiftri) ||
    decide (r.cod_client ∈ validClients.map ClientRec.cod_client))

/-- Summary block of the analyze response (client.controller.js lines
132-139). -/
structure AnalyzeSummary where
  totalReceived : Nat
  totalValid : Nat
  totalInvalid : Nat
  totalNew : Nat
  totalCurrent : Nat
  totalConflicts : Nat
deriving DecidableEq, Repr

/-- Data block of the analyze response (client.controller.js lines
140-145). -/
structure AnalyzeData where
  newClients : List ClientRec
  currentClients : List ClientRec
  conflictingClients : List (ClientRec × ConflictReason)
  invalidRows : List (RawClient × List ValErr)
deriving DecidableEq, Repr

/-- Analyze response body. -/
structure AnalyzeResp where
  summary : AnalyzeSummary
  data : AnalyzeData
deriving DecidableEq, Repr

/-- Request-level errors the embedded handlers can raise. -/
inductive MErr where
  | badRequest (msg : String)
  | storeFailure (msg : String)
deriving DecidableEq, Repr

/-- The cleaning map paired with the original row (`originalData`). -/
def cleanedClientsOf (rawClients : List RawClient) :
    List (RawClient × ClientRec) :=
  rawClients.map (fun r => (r, cleanRawClient r))

/-- The rows passing Joi validation, in input order (the `validClients`
list of the source). -/
def validClientsOf (rawClients : List RawClient) : List ClientRec :=
  ((cleanedClientsOf rawClients).filter
    (fun p => (clientObjectSchemaErrors p.2).isEmpty)).map Prod.snd

/-- The rows failing Joi validation with their messages, in input order
(the `invalidRows` list of the source). -/
def invalidRowsOf (rawClients : List RawClient) :
    List (RawClient × List ValErr) :=
  ((cleanedClientsOf rawClients).filter
    (fun p => !(clientObjectSchemaErrors p.2).isEmpty)).map
    (fun p => (p.1, clientObjectSchemaErrors p.2))

/-- The classification state at the end of the loop of `analyzeClients`,
over the key sets read off the single `$or` query. -/
def clientClassifyOf (db : List ClientDoc) (rawClients : List RawClient) :
    ClassifyState :=
  classifyClients
    ((clientsInDB db (validClientsOf rawClients)).map ClientDoc.cod_client)
    ((clientsInDB db (validClientsOf rawClients)).map ClientDoc.identiftri)
    (validClientsOf rawClients)

/-- Embedding of `analyzeClients` (client.controller.js lines 29-147):
reject an empty batch, clean every row, partition by Joi validation,
query the store once, classify, and respond. The 404 error object built
when every row is invalid is created but never thrown in the source, so
the pipeline continues into classification unconditionally. -/
def analyzeClients (db : List ClientDoc) (rawClients : List RawClient) :
    Except MErr AnalyzeResp :=
  if rawClients.isEmpty then
    .error (.badRequest "El archivo no contiene clientes.")
  else
    .ok
      { summary :=
          { totalReceived := rawClients.length
            totalValid := (validClientsOf rawClients).length
            totalInvalid := (invalidRowsOf rawClients).length
            totalNew := (clientClassifyOf db rawClients).newClients.length
            totalCurrent :=
              (clientClassifyOf db rawClients).currentClients.length
            totalConflicts :=
              (clientClassifyOf db rawClients).conflictingClients.length }
        data :=
          { newClients := (clientClassifyOf db rawClients).newClients
            currentClients := (clientClassifyOf db rawClients).currentClients
            conflictingClients :=
              (clientClassifyOf db rawClients).conflictingClients
            invalidRows := invalidRowsOf rawClients } }

/-! ## Client domain: commit (`confirmClientMigration`) and the store
model of `Client.insertMany` with `ordered: false` -/

/-- Whether two client documents collide on one of the three unique
indexes of `clientSchema` (`cod_client`, `identiftri`, `username`). -/
def keysClash (a b : ClientDoc) : Bool :=
  a.cod_client == b.cod_client || a.identiftri == b.identiftri ||
    a.username == b.username

/-- One attempted insert of the unordered bulk write: the document goes
in unless one of its unique keys is already present, in which case it is
recorded as a failed op. -/
def insStep (acc : List ClientDoc × Nat × List ClientDoc) (d : ClientDoc) :
    List ClientDoc × Nat × List ClientDoc :=
  if acc.1.any (fun r => keysClash r d) then
    (acc.1, acc.2.1, acc.2.2 ++ [d])
  else (acc.1 ++ [d], acc.2.1 + 1, acc.2.2)

/-- Model of `Client.insertMany(docs, { ordered: false })` against a
store that enforces the unique indexes: each document is inserted unless
one of its unique keys is already present (in the store or among the
documents inserted before it); the rest are reported as write errors
carrying their op. Returns the store after the call, `nInserted`, and
the failed ops in order. -/
def insertManyUnordered (store : List ClientDoc) (docs : List ClientDoc) :
    List ClientDoc × Nat × List ClientDoc :=
  docs.foldl insStep (store, 0, [])

/-- Outcome of the bulk insert as seen by the catch block of
`confirmClientMigration`: full success, a duplicate-key error (Mongo
code 11000 with `writeErrors` and `result.nInserted`), or any other
store error. -/
inductive InsertManyOutcome where
  | success
  | dupFailure (nInserted : Nat) (failedOps : List ClientDoc)
  | failure (e : MErr)
deriving DecidableEq, Repr

/-- Commit response data (client.controller.js lines 213-219). -/
structure CommitResp where
  createdCount : Nat
  duplicateClients : List ClientRec
deriving DecidableEq, Repr

/-- Key triple reported for a failed op (client.controller.js lines
201-205). -/
def docToKeys (d : ClientDoc) : ClientRec :=
  { cod_client := d.cod_client, identiftri := d.identiftri
    razon_soci := d.razon_soci }

/-- The try/catch dispatch of `confirmClientMigration` (lines 192-209):
success counts the whole batch; a code-11000 error with write errors
yields the store-reported insert count and the failed ops as duplicate
records; any other error is re-thrown. -/
def confirmDispatch (clientsToCreate : List ClientDoc) :
    InsertManyOutcome → Except MErr CommitResp
  | .success => .ok ⟨clientsToCreate.length, []⟩
  | .dupFailure n ops => .ok ⟨n, ops.map docToKeys⟩
  | .failure e => .error e

/-- The outcome the modelled store produces: the only store failures in
the model are uniqueness violations, surfaced as a code-11000 error
exactly when some write failed. -/
def insertManyOutcome (store docs : List ClientDoc) : InsertManyOutcome :=
  if (insertManyUnordered store docs).2.2.isEmpty then .success
  else .dupFailure (insertManyUnordered store docs).2.1
    (insertManyUnordered store docs).2.2

/-- Document built for one new client (client.controller.js lines
171-187): `username` is the trimmed string coercion of the secondary
key, the password a bcrypt hash of it (the hash function is a
parameter). -/
def clientToDoc (hash : String → String) (c : ClientRec) : ClientDoc :=
  { cod_client := c.cod_client
    razon_soci := c.razon_soci
    identiftri := c.identiftri
    username := jsTrim c.identiftri
    password := hash c.identiftri }

/-- The `clientsToCreate` document list of `confirmClientMigration`. -/
def clientsToCreateOf (hash : String → String)
    (newClients : List ClientRec) : List ClientDoc :=
  newClients.map (clientToDoc hash)

/-- Embedding of `confirmClientMigration` (client.controller.js lines
164-220), returning the response together with the store after the
call: reject an empty batch, build the documents, bulk-insert them
unordered, and dispatch on the outcome. -/
def confirmClientMigration (hash : String → String)
    (store : List ClientDoc) (newClients : List ClientRec) :
    Except MErr (CommitResp × List ClientDoc) :=
  if newClients.isEmpty then
    .error (.badRequest "No se recibieron clientes válidos para crear.")
  else
    match confirmDispatch (clientsToCreateOf hash newClients)
      (insertManyOutcome store (clientsToCreateOf hash newClients)) with
    | .ok resp =>
        .ok (resp, (insertManyUnordered store (clientsToCreateOf hash newClients)).1)
    | .error e => .error e

/-! ## Product domain: `analyzeProducts` and `confirmProductMigration` -/

/-- Raw product row: the four fields the analysis reads, each an
arbitrary JavaScript value (remaining CSV columns do not influence
classification). -/
structure RawProduct where
  code : JSVal
  lab : JSVal
  category : JSVal
  desc : JSVal
deriving DecidableEq, Repr

/-- The `normalizeName` helper of `analyzeProducts` (line 39): falsy
input yields `""`, otherwise trim then uppercase. -/
def normalizeName (v : JSVal) : String :=
  if jsFalsy v then "" else jsUpperStr (jsTrim (jsString v))

/-- Persisted product document (product.model.js): unique `code`, a
possibly absent description, and the lab/category references (ObjectIds
modelled as naturals). -/
structure StoredProduct where
  code : String
  desc : Option JSVal
  lab : Nat
  category : Nat
deriving DecidableEq, Repr

/-- The persistent store of the product domain: the lab and category
name tables and the products collection. -/
structure ProductDB where
  labs : List (String × Nat)
  categories : List (String × Nat)
  products : List StoredProduct
deriving DecidableEq, Repr

/-- A fresh ObjectId for a created lab or category: distinct from every
id already in the table. -/
def freshId (tbl : List (String × Nat)) : Nat :=
  (tbl.map Prod.snd).foldr max 0 + 1

/-- Unique names in first-occurrence order, the iteration order of the
JavaScript `Set` built from the batch. -/
def uniqueInOrder (l : List String) : List String :=
  l.foldl (fun acc x => if x ∈ acc then acc else acc ++ [x]) []

/-- The find-or-create loop over unique names (product.controller.js
lines 94-107 for labs, 113-129 for categories): returns the table after
the loop and the name-to-id map the analysis phase uses. -/
def buildNameMap (tbl : List (String × Nat)) (names : List String) :
    List (String × Nat) × List (String × Nat) :=
  names.foldl
    (fun acc name =>
      match acc.1.find? (fun p => p.1 == name) with
      | some p => (acc.1, acc.2 ++ [(name, p.2)])
      | none => (acc.1 ++ [(name, freshId acc.1)], acc.2 ++ [(name, freshId acc.1)]))
    (tbl, [])

/-- Lookup in a name-to-id map (`Map.get`). -/
def lookupName (m : List (String × Nat)) (name : String) : Option Nat :=
  (m.find? (fun p => p.1 == name)).map Prod.snd

/-- Validation error tags of the product analysis loop. -/
inductive PValErr where
  | codeRequired
  | labNotFound
  | catNotFound
  | descRequired
deriving DecidableEq, Repr

/-- The normalized product built for insertion (product.controller.js
lines 172-184, restricted to the classification-relevant fields). -/
structure ProcessedProduct where
  code : String
  lab : Nat
  category : Nat
  desc : Option JSVal
deriving DecidableEq, Repr

/-- Classification outcome of one product row. -/
inductive PBucket where
  | invalid (errs : List PValErr)
  | conflicting
  | current
  | isNew (toProcess : ProcessedProduct)
deriving DecidableEq, Repr

/-- Per-row decision of the product analysis loop (product.controller.js
lines 131-240): required code, resolvable lab and category, required
description; then a store lookup by code decides between conflict
(payload differs), current (payload equal) and new. -/
def analyzeOneProduct (products : List StoredProduct)
    (labsMap catsMap : List (String × Nat)) (p : RawProduct) : PBucket :=
  let code := jsTrim (jsString (if jsFalsy p.code then .str "" else p.code))
  if code = "" then .invalid [.codeRequired]
  else
    match lookupName labsMap (normalizeName p.lab) with
    | none => .invalid [.labNotFound]
    | some labId =>
      match lookupName catsMap (normalizeName p.category) with
      | none => .invalid [.catNotFound]
      | some catId =>
        if jsFalsy p.desc then .invalid [.descRequired]
        else
          let toProcess : ProcessedProduct :=
            ⟨code, labId, catId, some p.desc⟩
          match products.find? (fun sp => sp.code == code) with
          | some ex =>
              if ex.desc ≠ toProcess.desc ∨ ex.lab ≠ labId ∨ ex.category ≠ catId
              then .conflicting
              else .current
          | none => .isNew toProcess

/-- Accumulator of the product analysis loop: the error rows, the three
frontend lists and the migration list (product.controller.js lines
84-88). -/
structure PClassifyAcc where
  productsWithErrors : List (RawProduct × List PValErr)
  newProductsForFrontend : List ProcessedProduct
  currentProductsForFrontend : List RawProduct
  conflictingProductsForFrontend : List RawProduct
  newProductsForMigration : List ProcessedProduct
deriving DecidableEq, Repr

/-- One iteration of the product analysis loop: push the row into the
bucket chosen by `analyzeOneProduct`. -/
def pClassifyStep (products : List StoredProduct)
    (labsMap catsMap : List (String × Nat)) (acc : PClassifyAcc)
    (p : RawProduct) : PClassifyAcc :=
  match analyzeOneProduct products labsMap catsMap p with
  | .invalid errs =>
      { acc with productsWithErrors := acc.productsWithErrors ++ [(p, errs)] }
  | .conflicting =>
      { acc with conflictingProductsForFrontend :=
          acc.conflictingProductsForFrontend ++ [p] }
  | .current =>
      { acc with currentProductsForFrontend :=
          acc.currentProductsForFrontend ++ [p] }
  | .isNew tp =>
      { acc with
        newProductsForFrontend := acc.newProductsForFrontend ++ [tp]
        newProductsForMigration := acc.newProductsForMigration ++ [tp] }

/-- Summary block of the product analyze response (lines 245-254). -/
structure PAnalyzeSummary where
  totalReceived : Nat
  totalValid : Nat
  totalInvalid : Nat
  totalNew : Nat
  totalCurrent : Nat
  totalConflicts : Nat
  totalFilteredOut : Nat
deriving DecidableEq, Repr

/-- Product analyze response body (lines 242-262). -/
structure PAnalyzeResp where
  summary : PAnalyzeSummary
  newProducts : List ProcessedProduct
  currentProducts : List RawProduct
  conflictingProducts : List RawProduct
  invalidRows : List (RawProduct × List PValErr)
  productsReadyForMigration : List ProcessedProduct
deriving DecidableEq, Repr

/-- The pre-filter of `analyzeProducts` (lines 42-47): rows whose lab or
category normalizes to the tombstone name are dropped before analysis. -/
def productsToAnalyzeOf (productsData : List RawProduct) : List RawProduct :=
  productsData.filter (fun p =>
    !(normalizeName p.lab == "BAJA") && !(normalizeName p.category == "BAJA"))

/-- Unique normalized lab names of the analyzed rows, in
first-occurrence order (the `uniqueLabNames` set). -/
def uniqueLabNamesOf (productsToAnalyze : List RawProduct) : List String :=
  uniqueInOrder
    ((productsToAnalyze.map (fun p => normalizeName p.lab)).filter
      (fun n => !(n == "")))

/-- Unique normalized category names of the analyzed rows, in
first-occurrence order (the `uniqueCategoryNames` set). -/
def uniqueCategoryNamesOf (productsToAnalyze : List RawProduct) :
    List String :=
  uniqueInOrder
    ((productsToAnalyze.map (fun p => normalizeName p.category)).filter
      (fun n => !(n == "")))

/-- The `labsMap` the analysis loop reads. -/
def labsMapOf (pdb : ProductDB) (productsToAnalyze : List RawProduct) :
    List (String × Nat) :=
  (buildNameMap pdb.labs (uniqueLabNamesOf productsToAnalyze)).2

/-- The `categoriesMap` the analysis loop reads. -/
def catsMapOf (pdb : ProductDB) (productsToAnalyze : List RawProduct) :
    List (String × Nat) :=
  (buildNameMap pdb.categories (uniqueCategoryNamesOf productsToAnalyze)).2

/-- The accumulator at the end of the product analysis loop. -/
def pAccOf (pdb : ProductDB) (productsToAnalyze : List RawProduct) :
    PClassifyAcc :=
  productsToAnalyze.foldl
    (pClassifyStep pdb.products (labsMapOf pdb productsToAnalyze)
      (catsMapOf pdb productsToAnalyze))
    ⟨[], [], [], [], []⟩

/-- Embedding of `analyzeProducts` (product.controller.js lines 29-263):
reject a missing batch, drop tombstoned rows, answer early when nothing
remains, otherwise find-or-create labs and categories and classify every
remaining row. -/
def analyzeProducts (pdb : ProductDB) (productsData : List RawProduct) :
    Except MErr PAnalyzeResp :=
  if productsData.isEmpty then
    .error (.badRequest "No se encontraron datos de productos en la solicitud.")
  else
    if (productsToAnalyzeOf productsData).isEmpty then
      .ok
        { summary :=
            { totalReceived := productsData.length
              totalValid := 0, totalInvalid := 0, totalNew := 0
              totalCurrent := 0, totalConflicts := 0
              totalFilteredOut := productsData.length -
                (productsToAnalyzeOf productsData).length }
          newProducts := [], currentProducts := [], conflictingProducts := []
          invalidRows := [], productsReadyForMigration := [] }
    else
      .ok
        { summary :=
            { totalReceived := productsData.length
              totalValid :=
                (pAccOf pdb (productsToAnalyzeOf productsData)).newProductsForFrontend.length +
                (pAccOf pdb (productsToAnalyzeOf productsData)).currentProductsForFrontend.length
              totalInvalid :=
                (pAccOf pdb (productsToAnalyzeOf productsData)).productsWithErrors.length
              totalNew :=
                (pAccOf pdb (productsToAnalyzeOf productsData)).newProductsForFrontend.length
              totalCurrent :=
                (pAccOf pdb (productsToAnalyzeOf productsData)).currentProductsForFrontend.length
              totalConflicts :=
                (pAccOf pdb (productsToAnalyzeOf productsData)).conflictingProductsForFrontend.length
              totalFilteredOut := productsData.length -
                (productsToAnalyzeOf productsData).length }
          newProducts :=
            (pAccOf pdb (productsToAnalyzeOf productsData)).newProductsForFrontend
          currentProducts :=
            (pAccOf pdb (productsToAnalyzeOf productsData)).currentProductsForFrontend
          conflictingProducts :=
            (pAccOf pdb (productsToAnalyzeOf productsData)).conflictingProductsForFrontend
          invalidRows :=
            (pAccOf pdb (productsToAnalyzeOf productsData)).productsWithErrors
          productsReadyForMigration :=
            (pAccOf pdb (productsToAnalyzeOf productsData)).newProductsForMigration }

/-- Input row of `confirmProductMigration`: the lab and category fields
as received, `none` standing for an absent or invalid ObjectId. -/
structure ProductToMigrate where
  code : String
  lab : Option Nat
  category : Option Nat
  desc : Option JSVal
deriving DecidableEq, Repr

/-- Embedding of `confirmProductMigration` (product.controller.js lines
284-344): reject an empty batch, then insert record by record, each
failed ObjectId check becoming an error row, each surviving record a
single-document save. Returns created count, error rows and the store
after the loop. -/
def confirmProductMigration (pdb : ProductDB)
    (productsToMigrate : List ProductToMigrate) :
    Except MErr (Nat × List ProductToMigrate × List StoredProduct) :=
  if productsToMigrate.isEmpty then
    .error (.badRequest "No se encontraron productos válidos para migrar.")
  else
    .ok (productsToMigrate.foldl
      (fun acc p =>
        match p.lab, p.category with
        | some labId, some catId =>
            if acc.2.2.any (fun sp => sp.code == p.code) then
              (acc.1, acc.2.1 ++ [p], acc.2.2)
            else
              (acc.1 + 1, acc.2.1, acc.2.2 ++ [⟨p.code, p.desc, labId, catId⟩])
        | _, _ => (acc.1, acc.2.1 ++ [p], acc.2.2))
      (0, [], pdb.products))

/-! ## Store round-trip traces

Each awaited store call of the source is mirrored by one entry in an
operation trace, so that the number of round-trips a handler performs is
the length of its trace. -/

/-- One store round-trip. -/
inductive StoreOp where
  | findQuery
  | findOneQuery
  | saveOne
  | insertManyBulk
deriving DecidableEq, Repr

/-- Trace of `analyzeClients`: past the empty-batch guard there is
exactly one awaited call, the single `$or` `Client.find` (lines 76-81),
whatever the batch size. -/
def analyzeClientsOps (rawClients : List RawClient) : List StoreOp :=
  if rawClients.isEmpty then [] else [.findQuery]

/-- Trace of `confirmClientMigration`: past the guard, the single
`Client.insertMany` bulk call (line 193). -/
def confirmClientMigrationOps (newClients : List ClientRec) : List StoreOp :=
  if newClients.isEmpty then [] else [.insertManyBulk]

/-- Trace of the lab/category find-or-create loop: one `findOne` per
unique name, plus one `save` when the name is created. -/
def buildNameMapOps (tbl : List (String × Nat)) (names : List String) :
    List StoreOp :=
  (names.foldl
    (fun acc name =>
      match acc.1.find? (fun p => p.1 == name) with
      | some _ => (acc.1, acc.2 ++ [.findOneQuery])
      | none =>
          (acc.1 ++ [(name, freshId acc.1)],
            acc.2 ++ [.findOneQuery, .saveOne]))
    (tbl, ([] : List StoreOp))).2

/-- Trace of `analyzeProducts`: the lab loop, the category loop, and one
`Product.findOne` per row that survives the code/lab/category/desc
checks (line 186). -/
def analyzeProductsOps (pdb : ProductDB) (productsData : List RawProduct) :
    List StoreOp :=
  if productsData.isEmpty then []
  else
    if (productsToAnalyzeOf productsData).isEmpty then []
    else
      buildNameMapOps pdb.labs
          (uniqueLabNamesOf (productsToAnalyzeOf productsData)) ++
        buildNameMapOps pdb.categories
          (uniqueCategoryNamesOf (productsToAnalyzeOf productsData)) ++
        (productsToAnalyzeOf productsData).foldl
          (fun acc p =>
            match analyzeOneProduct pdb.products
              (labsMapOf pdb (productsToAnalyzeOf productsData))
              (catsMapOf pdb (productsToAnalyzeOf productsData)) p with
            | .invalid _ => acc
            | _ => acc ++ [.findOneQuery])
          []

/-- Trace of `confirmProductMigration`: one single-document `save` per
record that passes both ObjectId checks (lines 295-332). -/
def confirmProductMigrationOps (productsToMigrate : List ProductToMigrate) :
    List StoreOp :=
  if productsToMigrate.isEmpty then []
  else
    productsToMigrate.foldl
      (fun acc p =>
        match p.lab, p.category with
        | some _, some _ => acc ++ [.saveOne]
        | _, _ => acc)
      []

/-! ## Claim-side definitions for the classification refinement -/

/-- Placeholder candidate for out-of-range index access. -/
def defaultClient : ClientRec := ⟨"", "", ""⟩

/-- State of the classification loop after the first `i` candidates of
the batch have been processed. -/
def classifyStateAt (codesDB cuitsDB : List String) (batch : List ClientRec)
    (i : Nat) : ClassifyState :=
  classifyClients codesDB cuitsDB (batch.take i)

/-- Bucket the classification loop assigns to the candidate at position
`i` of the batch: the if-chain evaluated in the state reached after the
earlier candidates. -/
def bucketAt (codesDB cuitsDB : List String) (batch : List ClientRec)
    (i : Nat) : Bucket :=
  decideBucket codesDB cuitsDB
    (classifyStateAt codesDB cuitsDB batch i).processedCodes
    (classifyStateAt codesDB cuitsDB batch i).processedCuits
    (batch.getD i defaultClient)

/-- The primary keys the classification loop tests against, as built by
`analyzeClients` from the single `$or` store query. -/
def analyzeCodesDB (db : List ClientDoc) (batch : List ClientRec) :
    List String :=
  (clientsInDB db batch).map ClientDoc.cod_client

/-- The secondary keys the classification loop tests against, as built
by `analyzeClients` from the single `$or` store query. -/
def analyzeCuitsDB (db : List ClientDoc) (batch : List ClientRec) :
    List String :=
  (clientsInDB db batch).map ClientDoc.identiftri

/-- Claim-side bucket assignment, written from the spec words: priority
order over the persisted primary keys, the persisted secondary keys, the
primary keys of the earlier New candidates, and their secondary keys. -/
def specBucket (db : List ClientDoc) (earlierNew : List ClientRec)
    (c : ClientRec) : Bucket :=
  if c.cod_client ∈ db.map ClientDoc.cod_client then .current
  else if c.identiftri ∈ db.map ClientDoc.identiftri then
    .conflicting (.cuitInStore c.identiftri)
  else if c.cod_client ∈ earlierNew.map ClientRec.cod_client then
    .conflicting (.codInFile c.cod_client)
  else if c.identiftri ∈ earlierNew.map ClientRec.identiftri then
    .conflicting (.cuitInFile c.identiftri)
  else .new

/-! ## Lemmas on the character-level normalizers -/

theorem jsUpperChar_fix {c : Char} (h : (isUpperAlpha c || isDigitCh c) = true) :
    jsUpperChar c = c := by
  unfold isUpperAlpha isDigitCh at h
  simp only [Bool.or_eq_true, Bool.and_eq_true, decide_eq_true_eq] at h
  unfold jsUpperChar
  rw [if_neg]
  omega

theorem digit_not_upper {c : Char} (h : isDigitCh c = true) :
    isUpperAlpha c = false := by
  unfold isDigitCh at h
  unfold isUpperAlpha
  simp only [Bool.and_eq_true, decide_eq_true_eq] at h
  simp only [Bool.and_eq_false_iff, decide_eq_false_iff_not]
  omega

theorem upper_not_digit {c : Char} (h : isUpperAlpha c = true) :
    isDigitCh c = false := by
  unfold isUpperAlpha at h
  unfold isDigitCh
  simp only [Bool.and_eq_true, decide_eq_true_eq] at h
  simp only [Bool.and_eq_false_iff, decide_eq_false_iff_not]
  omega

theorem mem_cleanCodChars {l : List Char} {c : Char}
    (hc : c ∈ cleanCodChars l) : (isUpperAlpha c || isDigitCh c) = true := by
  unfold cleanCodChars at hc
  rcases List.mem_append.mp hc with h | h <;>
    simp [(List.mem_filter.mp h).2]

theorem cleanCodChars_idem (l : List Char) :
    cleanCodChars (cleanCodChars l) = cleanCodChars l := by
  have hmap : (cleanCodChars l).map jsUpperChar = cleanCodChars l := by
    have h := List.map_congr_left
      (l := cleanCodChars l) (f := jsUpperChar) (g := id)
      (fun a ha => jsUpperChar_fix (mem_cleanCodChars ha))
    simpa using h
  have hguard : (cleanCodChars l).filter
      (fun c => isUpperAlpha c || isDigitCh c) = cleanCodChars l :=
    List.filter_eq_self.mpr (fun a ha => mem_cleanCodChars ha)
  have hsplit : ∀ p : Char → Bool,
      (cleanCodChars l).filter p =
        (((l.map jsUpperChar).filter
            (fun c => isUpperAlpha c || isDigitCh c)).filter isUpperAlpha).filter p ++
        (((l.map jsUpperChar).filter
            (fun c => isUpperAlpha c || isDigitCh c)).filter isDigitCh).filter p := by
    intro p
    unfold cleanCodChars
    exact List.filter_append ..
  conv_lhs => rw [cleanCodChars, hmap, hguard]
  rw [hsplit isUpperAlpha, hsplit isDigitCh]
  have hAA : (((l.map jsUpperChar).filter
      (fun c => isUpperAlpha c || isDigitCh c)).filter isUpperAlpha).filter isUpperAlpha =
      ((l.map jsUpperChar).filter
        (fun c => isUpperAlpha c || isDigitCh c)).filter isUpperAlpha :=
    List.filter_eq_self.mpr (fun a ha => (List.mem_filter.mp ha).2)
  have hDD : (((l.map jsUpperChar).filter
      (fun c => isUpperAlpha c || isDigitCh c)).filter isDigitCh).filter isDigitCh =
      ((l.map jsUpperChar).filter
        (fun c => isUpperAlpha c || isDigitCh c)).filter isDigitCh :=
    List.filter_eq_self.mpr (fun a ha => (List.mem_filter.mp ha).2)
  have hDA : (((l.map jsUpperChar).filter
      (fun c => isUpperAlpha c || isDigitCh c)).filter isDigitCh).filter isUpperAlpha = [] :=
    List.filter_eq_nil_iff.mpr (fun a ha => by
      rw [digit_not_upper (List.mem_filter.mp ha).2]
      exact Bool.false_ne_true)
  have hAD : (((l.map jsUpperChar).filter
      (fun c => isUpperAlpha c || isDigitCh c)).filter isUpperAlpha).filter isDigitCh = [] :=
    List.filter_eq_nil_iff.mpr (fun a ha => by
      rw [upper_not_digit (List.mem_filter.mp ha).2]
      exact Bool.false_ne_true)
  rw [hAA, hDA, hAD, hDD, List.append_nil, List.nil_append]
  rfl

theorem cleanIdentChars_idem (l : List Char) :
    (l.filter isDigitCh).filter isDigitCh = l.filter isDigitCh := by
  rw [List.filter_filter]
  congr 1
  funext a
  rw [Bool.and_self]

/-- C9: the key normalizers are idempotent — re-normalizing the output
of the primary-key normalizer or of the secondary-key normalizer
(as string input) returns it unchanged. -/
theorem cleanKeys_idempotent (s : String) :
    cleanCodClient (.str (cleanCodClient (.str s))) = cleanCodClient (.str s) ∧
    cleanIdentiftri (.str (cleanIdentiftri (.str s))) = cleanIdentiftri (.str s) := by
  constructor
  · show cleanCodStr (cleanCodStr s) = cleanCodStr s
    show String.mk (cleanCodChars (String.mk (cleanCodChars s.data)).data) =
      String.mk (cleanCodChars s.data)
    rw [show (String.mk (cleanCodChars s.data)).data = cleanCodChars s.data from rfl,
      cleanCodChars_idem]
  · show cleanIdentStr (cleanIdentStr s) = cleanIdentStr s
    show String.mk ((String.mk (s.data.filter isDigitCh)).data.filter isDigitCh) =
      String.mk (s.data.filter isDigitCh)
    rw [show (String.mk (s.data.filter isDigitCh)).data = s.data.filter isDigitCh from rfl,
      cleanIdentChars_idem]

/-! ## C8: non-string, non-number inputs to the normalizers -/

theorem jsUpperStr_eq_empty {t : String} (h : jsUpperStr t = "") : t = "" := by
  cases t with
  | mk data =>
    have hdata : List.map jsUpperChar data = [] := congrArg String.data h
    rw [List.map_eq_nil_iff] at hdata
    exact congrArg String.mk hdata

theorem cleanRazonSoci_ne_empty (v : JSVal) : cleanRazonSoci v ≠ "" := by
  unfold cleanRazonSoci
  by_cases h : jsTrim (jsString (if jsFalsy v then .str "" else v)) = ""
  · rw [if_pos h]
    decide
  · rw [if_neg h]
    intro hcontra
    exact h (jsUpperStr_eq_empty hcontra)

/-- C8 counterexample: the free-text normalizer does not return the
empty string on a boolean input — `cleanRazonSoci true` evaluates to
`"TRUE"`. -/
theorem cleanRazonSoci_bool_counterexample :
    isStrOrNum (.bool true) = false ∧ cleanRazonSoci (.bool true) = "TRUE" ∧
      cleanRazonSoci (.bool true) ≠ "" := by
  refine ⟨rfl, ?_, ?_⟩ <;> decide

/-- C8 (amended): on every value that is neither a string nor a number,
the two key normalizers return the empty string, and the free-text
normalizer never throws but never returns the empty string either (it
substitutes the sentinel for falsy input and otherwise coerces, trims
and uppercases). -/
theorem normalizers_on_non_string_number {v : JSVal}
    (h : isStrOrNum v = false) :
    cleanCodClient v = "" ∧ cleanIdentiftri v = "" ∧ cleanRazonSoci v ≠ "" := by
  refine ⟨?_, ?_, cleanRazonSoci_ne_empty v⟩
  · unfold cleanCodClient
    rw [h]
    rfl
  · unfold cleanIdentiftri
    rw [h]
    rfl

/-- Witness for the amended C8 theorem at the concrete value `null`. -/
theorem normalizers_on_non_string_number_witness :
    cleanCodClient .null = "" ∧ cleanIdentiftri .null = "" ∧
      cleanRazonSoci .null ≠ "" :=
  normalizers_on_non_string_number (v := .null) rfl

/-! ## Lemmas on the client classification loop -/

/-- The seen-sets of the loop hold exactly the keys of the candidates
classified New so far. -/
def SeenInv (st : ClassifyState) : Prop :=
  st.processedCodes = st.newClients.map ClientRec.cod_client ∧
    st.processedCuits = st.newClients.map ClientRec.identiftri

theorem seenInv_step (codesDB cuitsDB : List String) (st : ClassifyState)
    (c : ClientRec) (h : SeenInv st) :
    SeenInv (classifyStep codesDB cuitsDB st c) := by
  obtain ⟨h1, h2⟩ := h
  unfold classifyStep
  cases decideBucket codesDB cuitsDB st.processedCodes st.processedCuits c with
  | new => exact ⟨by simp [h1], by simp [h2]⟩
  | current => exact ⟨h1, h2⟩
  | conflicting r => exact ⟨h1, h2⟩

theorem seenInv_foldl (codesDB cuitsDB : List String) (l : List ClientRec)
    (st : ClassifyState) (h : SeenInv st) :
    SeenInv (l.foldl (classifyStep codesDB cuitsDB) st) := by
  induction l generalizing st with
  | nil => exact h
  | cons c t ih =>
      exact ih (classifyStep codesDB cuitsDB st c)
        (seenInv_step codesDB cuitsDB st c h)

theorem seenInv_classify (codesDB cuitsDB : List String)
    (l : List ClientRec) : SeenInv (classifyClients codesDB cuitsDB l) :=
  seenInv_foldl codesDB cuitsDB l initClassifyState ⟨rfl, rfl⟩

/-- Membership in the seen-sets only grows along the loop. -/
theorem processed_mono (codesDB cuitsDB : List String) (l : List ClientRec)
    (st : ClassifyState) :
    (∀ x ∈ st.processedCodes,
        x ∈ (l.foldl (classifyStep codesDB cuitsDB) st).processedCodes) ∧
    (∀ x ∈ st.processedCuits,
        x ∈ (l.foldl (classifyStep codesDB cuitsDB) st).processedCuits) := by
  induction l generalizing st with
  | nil => exact ⟨fun x hx => hx, fun x hx => hx⟩
  | cons c t ih =>
      refine ⟨fun x hx => ?_, fun x hx => ?_⟩
      · apply (ih (classifyStep codesDB cuitsDB st c)).1
        unfold classifyStep
        cases decideBucket codesDB cuitsDB st.processedCodes st.processedCuits c with
        | new => exact List.mem_append_left _ hx
        | current => exact hx
        | conflicting r => exact hx
      · apply (ih (classifyStep codesDB cuitsDB st c)).2
        unfold classifyStep
        cases decideBucket codesDB cuitsDB st.processedCodes st.processedCuits c with
        | new => exact List.mem_append_left _ hx
        | current => exact hx
        | conflicting r => exact hx

/-- For a candidate of the batch, its primary key is among the keys of
the `$or` query result exactly when it is persisted at all: the query
restriction loses no relevant row. -/
theorem mem_analyzeCodesDB {db : List ClientDoc} {batch : List ClientRec}
    {c : ClientRec} (hc : c ∈ batch) :
    c.cod_client ∈ analyzeCodesDB db batch ↔
      c.cod_client ∈ db.map ClientDoc.cod_client := by
  unfold analyzeCodesDB clientsInDB
  constructor
  · intro h
    rcases List.mem_map.mp h with ⟨r, hr, hre⟩
    exact List.mem_map.mpr ⟨r, (List.mem_filter.mp hr).1, hre⟩
  · intro h
    rcases List.mem_map.mp h with ⟨r, hr, hre⟩
    refine List.mem_map.mpr ⟨r, List.mem_filter.mpr ⟨hr, ?_⟩, hre⟩
    rw [Bool.or_eq_true]
    right
    rw [decide_eq_true_eq, hre]
    exact List.mem_map.mpr ⟨c, hc, rfl⟩

/-- Secondary-key analogue of `mem_analyzeCodesDB`. -/
theorem mem_analyzeCuitsDB {db : List ClientDoc} {batch : List ClientRec}
    {c : ClientRec} (hc : c ∈ batch) :
    c.identiftri ∈ analyzeCuitsDB db batch ↔
      c.identiftri ∈ db.map ClientDoc.identiftri := by
  unfold analyzeCuitsDB clientsInDB
  constructor
  · intro h
    rcases List.mem_map.mp h with ⟨r, hr, hre⟩
    exact List.mem_map.mpr ⟨r, (List.mem_filter.mp hr).1, hre⟩
  · intro h
    rcases List.mem_map.mp h with ⟨r, hr, hre⟩
    refine List.mem_map.mpr ⟨r, List.mem_filter.mpr ⟨hr, ?_⟩, hre⟩
    rw [Bool.or_eq_true]
    left
    rw [decide_eq_true_eq, hre]
    exact List.mem_map.mpr ⟨c, hc, rfl⟩

theorem getD_mem_of_lt {batch : List ClientRec} {i : Nat}
    (h : i < batch.length) : batch.getD i defaultClient ∈ batch := by
  rw [List.getD_eq_get?, List.get?_eq_get h]
  exact List.get_mem batch i h

/-- C1: each candidate of a validated batch is assigned its bucket by
the priority chain of the spec — persisted primary key makes it Current,
else a persisted secondary key makes it Conflicting, else a primary or
secondary key of an earlier New candidate makes it Conflicting, else it
is New — where the persisted keys are those of the full store, despite
the single restricted `$or` query; in particular a store-level
secondary-key match yields Conflicting whenever the primary key is not
persisted. -/
theorem analyzeClients_bucket_priority :
    (∀ (db : List ClientDoc) (batch : List ClientRec) (i : Nat),
      i < batch.length →
      bucketAt (analyzeCodesDB db batch) (analyzeCuitsDB db batch) batch i =
        specBucket db
          (classifyStateAt (analyzeCodesDB db batch) (analyzeCuitsDB db batch)
            batch i).newClients
          (batch.getD i defaultClient)) ∧
    (∀ (db : List ClientDoc) (batch : List ClientRec) (i : Nat),
      i < batch.length →
      (batch.getD i defaultClient).cod_client ∉ db.map ClientDoc.cod_client →
      (batch.getD i defaultClient).identiftri ∈ db.map ClientDoc.identiftri →
      bucketAt (analyzeCodesDB db batch) (analyzeCuitsDB db batch) batch i =
        .conflicting (.cuitInStore (batch.getD i defaultClient).identiftri)) := by
  have main : ∀ (db : List ClientDoc) (batch : List ClientRec) (i : Nat),
      i < batch.length →
      bucketAt (analyzeCodesDB db batch) (analyzeCuitsDB db batch) batch i =
        specBucket db
          (classifyStateAt (analyzeCodesDB db batch) (analyzeCuitsDB db batch)
            batch i).newClients
          (batch.getD i defaultClient) := by
    intro db batch i hi
    have hc : batch.getD i defaultClient ∈ batch := getD_mem_of_lt hi
    obtain ⟨h1, h2⟩ := seenInv_classify (analyzeCodesDB db batch)
      (analyzeCuitsDB db batch) (batch.take i)
    unfold bucketAt decideBucket specBucket classifyStateAt
    rw [show classifyClients (analyzeCodesDB db batch)
        (analyzeCuitsDB db batch) (batch.take i) =
        (batch.take i).foldl
          (classifyStep (analyzeCodesDB db batch) (analyzeCuitsDB db batch))
          initClassifyState from rfl] at h1 h2 ⊢
    rw [h1, h2]
    simp only [mem_analyzeCodesDB hc, mem_analyzeCuitsDB hc]
  refine ⟨main, fun db batch i hi hcod hcuit => ?_⟩
  rw [main db batch i hi]
  unfold specBucket
  rw [if_neg hcod, if_pos hcuit]

/-- C5, general form: once an earlier candidate sharing the secondary
key has been classified New, a later candidate whose own keys are not
persisted is classified Conflicting with an in-batch reason. -/
theorem inbatch_second_conflicts (codesDB cuitsDB : List String)
    (pre mid : List ClientRec) (a b : ClientRec)
    (hsame : a.identiftri = b.identiftri)
    (hbcod : b.cod_client ∉ codesDB) (hbcuit : b.identiftri ∉ cuitsDB)
    (ha : decideBucket codesDB cuitsDB
      (classifyClients codesDB cuitsDB pre).processedCodes
      (classifyClients codesDB cuitsDB pre).processedCuits a = .new) :
    ∃ r, decideBucket codesDB cuitsDB
        (classifyClients codesDB cuitsDB (pre ++ a :: mid)).processedCodes
        (classifyClients codesDB cuitsDB (pre ++ a :: mid)).processedCuits b =
        .conflicting r ∧
      (r = .codInFile b.cod_client ∨ r = .cuitInFile b.identiftri) := by
  have hexp : classifyClients codesDB cuitsDB (pre ++ a :: mid) =
      mid.foldl (classifyStep codesDB cuitsDB)
        (classifyStep codesDB cuitsDB
          (classifyClients codesDB cuitsDB pre) a) := by
    unfold classifyClients
    rw [List.foldl_append, List.foldl_cons]
  have hstep : classifyStep codesDB cuitsDB
      (classifyClients codesDB cuitsDB pre) a =
      { classifyClients codesDB cuitsDB pre with
        newClients := (classifyClients codesDB cuitsDB pre).newClients ++ [a]
        processedCodes :=
          (classifyClients codesDB cuitsDB pre).processedCodes ++ [a.cod_client]
        processedCuits :=
          (classifyClients codesDB cuitsDB pre).processedCuits ++ [a.identiftri] } := by
    unfold classifyStep
    rw [ha]
  have hmem : b.identiftri ∈
      (classifyClients codesDB cuitsDB (pre ++ a :: mid)).processedCuits := by
    rw [hexp, hstep]
    apply (processed_mono codesDB cuitsDB mid _).2
    rw [← hsame]
    exact List.mem_append_right _ (List.mem_singleton_self _)
  unfold decideBucket
  rw [if_neg hbcod, if_neg hbcuit]
  by_cases hpc : b.cod_client ∈
      (classifyClients codesDB cuitsDB (pre ++ a :: mid)).processedCodes
  · exact ⟨.codInFile b.cod_client, by rw [if_pos hpc], Or.inl rfl⟩
  · exact ⟨.cuitInFile b.identiftri,
      by rw [if_neg hpc, if_pos hmem], Or.inr rfl⟩

theorem pair_cuit_duplicate (db : List ClientDoc) (a b : ClientRec)
    (hsame : a.identiftri = b.identiftri)
    (hacoddb : a.cod_client ∉ db.map ClientDoc.cod_client)
    (hbcoddb : b.cod_client ∉ db.map ClientDoc.cod_client)
    (hbcuitdb : b.identiftri ∉ db.map ClientDoc.identiftri)
    (hne : a.cod_client ≠ b.cod_client) :
    bucketAt (analyzeCodesDB db [a, b]) (analyzeCuitsDB db [a, b]) [a, b] 0 =
      .new ∧
    bucketAt (analyzeCodesDB db [a, b]) (analyzeCuitsDB db [a, b]) [a, b] 1 =
      .conflicting (.cuitInFile b.identiftri) := by
  have hamem : a ∈ [a, b] := by simp
  have hbmem : b ∈ [a, b] := by simp
  have hacod : a.cod_client ∉ analyzeCodesDB db [a, b] :=
    fun h => hacoddb ((mem_analyzeCodesDB hamem).mp h)
  have hacuit : a.identiftri ∉ analyzeCuitsDB db [a, b] := by
    intro h
    have h2 := (mem_analyzeCuitsDB hamem).mp h
    rw [hsame] at h2
    exact hbcuitdb h2
  have hbcod : b.cod_client ∉ analyzeCodesDB db [a, b] :=
    fun h => hbcoddb ((mem_analyzeCodesDB hbmem).mp h)
  have hbcuit : b.identiftri ∉ analyzeCuitsDB db [a, b] :=
    fun h => hbcuitdb ((mem_analyzeCuitsDB hbmem).mp h)
  have hdecA : decideBucket (analyzeCodesDB db [a, b])
      (analyzeCuitsDB db [a, b]) [] [] a = .new := by
    unfold decideBucket
    rw [if_neg hacod, if_neg hacuit, if_neg (List.not_mem_nil _),
      if_neg (List.not_mem_nil _)]
  refine ⟨hdecA, ?_⟩
  have hstate : classifyStateAt (analyzeCodesDB db [a, b])
      (analyzeCuitsDB db [a, b]) [a, b] 1 =
      { newClients := [a], currentClients := [], conflictingClients := []
        processedCodes := [a.cod_client], processedCuits := [a.identiftri] } := by
    show classifyStep (analyzeCodesDB db [a, b]) (analyzeCuitsDB db [a, b])
      initClassifyState a = _
    unfold classifyStep
    rw [show decideBucket (analyzeCodesDB db [a, b]) (analyzeCuitsDB db [a, b])
      initClassifyState.processedCodes initClassifyState.processedCuits a =
      .new from hdecA]
    rfl
  show decideBucket (analyzeCodesDB db [a, b]) (analyzeCuitsDB db [a, b])
    (classifyStateAt (analyzeCodesDB db [a, b]) (analyzeCuitsDB db [a, b])
      [a, b] 1).processedCodes
    (classifyStateAt (analyzeCodesDB db [a, b]) (analyzeCuitsDB db [a, b])
      [a, b] 1).processedCuits b = _
  rw [hstate]
  unfold decideBucket
  rw [if_neg hbcod, if_neg hbcuit,
    if_neg (show b.cod_client ∉ [a.cod_client] from by
      rw [List.mem_singleton]
      exact fun h => hne h.symm),
    if_pos (show b.identiftri ∈ [a.identiftri] from by
      rw [hsame]
      exact List.mem_singleton_self _)]

theorem pair_cod_duplicate (db : List ClientDoc) (a b : ClientRec)
    (hsame : a.cod_client = b.cod_client)
    (hacoddb : a.cod_client ∉ db.map ClientDoc.cod_client)
    (hacuitdb : a.identiftri ∉ db.map ClientDoc.identiftri)
    (hbcuitdb : b.identiftri ∉ db.map ClientDoc.identiftri) :
    bucketAt (analyzeCodesDB db [a, b]) (analyzeCuitsDB db [a, b]) [a, b] 0 =
      .new ∧
    bucketAt (analyzeCodesDB db [a, b]) (analyzeCuitsDB db [a, b]) [a, b] 1 =
      .conflicting (.codInFile b.cod_client) := by
  have hamem : a ∈ [a, b] := by simp
  have hbmem : b ∈ [a, b] := by simp
  have hacod : a.cod_client ∉ analyzeCodesDB db [a, b] :=
    fun h => hacoddb ((mem_analyzeCodesDB hamem).mp h)
  have hacuit : a.identiftri ∉ analyzeCuitsDB db [a, b] :=
    fun h => hacuitdb ((mem_analyzeCuitsDB hamem).mp h)
  have hbcod : b.cod_client ∉ analyzeCodesDB db [a, b] := by
    intro h
    have h2 := (mem_analyzeCodesDB hbmem).mp h
    rw [← hsame] at h2
    exact hacoddb h2
  have hbcuit : b.identiftri ∉ analyzeCuitsDB db [a, b] :=
    fun h => hbcuitdb ((mem_analyzeCuitsDB hbmem).mp h)
  have hdecA : decideBucket (analyzeCodesDB db [a, b])
      (analyzeCuitsDB db [a, b]) [] [] a = .new := by
    unfold decideBucket
    rw [if_neg hacod, if_neg hacuit, if_neg (List.not_mem_nil _),
      if_neg (List.not_mem_nil _)]
  refine ⟨hdecA, ?_⟩
  have hstate : classifyStateAt (analyzeCodesDB db [a, b])
      (analyzeCuitsDB db [a, b]) [a, b] 1 =
      { newClients := [a], currentClients := [], conflictingClients := []
        processedCodes := [a.cod_client], processedCuits := [a.identiftri] } := by
    show classifyStep (analyzeCodesDB db [a, b]) (analyzeCuitsDB db [a, b])
      initClassifyState a = _
    unfold classifyStep
    rw [show decideBucket (analyzeCodesDB db [a, b]) (analyzeCuitsDB db [a, b])
      initClassifyState.processedCodes initClassifyState.processedCuits a =
      .new from hdecA]
    rfl
  show decideBucket (analyzeCodesDB db [a, b]) (analyzeCuitsDB db [a, b])
    (classifyStateAt (analyzeCodesDB db [a, b]) (analyzeCuitsDB db [a, b])
      [a, b] 1).processedCodes
    (classifyStateAt (analyzeCodesDB db [a, b]) (analyzeCuitsDB db [a, b])
      [a, b] 1).processedCuits b = _
  rw [hstate]
  unfold decideBucket
  rw [if_neg hbcod, if_neg hbcuit,
    if_pos (show b.cod_client ∈ [a.cod_client] from by
      rw [hsame]
      exact List.mem_singleton_self _)]

/-- C5: when two candidates share a secondary key that is not persisted
and both primary keys are fresh, the batch `[a, b]` classifies `a` New
and `b` Conflicting as an in-batch duplicate; the analogous statement
holds for a shared primary key; and in general, in any batch, a later
candidate whose keys are not persisted and whose secondary key equals
that of an earlier candidate classified New is Conflicting with an
in-batch reason — classification is a pure fold over the batch in input
order, so first occurrence wins deterministically. -/
theorem inbatch_duplicate_first_wins :
    (∀ (db : List ClientDoc) (a b : ClientRec),
      a.identiftri = b.identiftri →
      a.cod_client ∉ db.map ClientDoc.cod_client →
      b.cod_client ∉ db.map ClientDoc.cod_client →
      b.identiftri ∉ db.map ClientDoc.identiftri →
      a.cod_client ≠ b.cod_client →
      bucketAt (analyzeCodesDB db [a, b]) (analyzeCuitsDB db [a, b]) [a, b] 0 =
        .new ∧
      bucketAt (analyzeCodesDB db [a, b]) (analyzeCuitsDB db [a, b]) [a, b] 1 =
        .conflicting (.cuitInFile b.identiftri)) ∧
    (∀ (db : List ClientDoc) (a b : ClientRec),
      a.cod_client = b.cod_client →
      a.cod_client ∉ db.map ClientDoc.cod_client →
      a.identiftri ∉ db.map ClientDoc.identiftri →
      b.identiftri ∉ db.map ClientDoc.identiftri →
      bucketAt (analyzeCodesDB db [a, b]) (analyzeCuitsDB db [a, b]) [a, b] 0 =
        .new ∧
      bucketAt (analyzeCodesDB db [a, b]) (analyzeCuitsDB db [a, b]) [a, b] 1 =
        .conflicting (.codInFile b.cod_client)) ∧
    (∀ (codesDB cuitsDB : List String) (pre mid : List ClientRec)
      (a b : ClientRec),
      a.identiftri = b.identiftri →
      b.cod_client ∉ codesDB → b.identiftri ∉ cuitsDB →
      decideBucket codesDB cuitsDB
        (classifyClients codesDB cuitsDB pre).processedCodes
        (classifyClients codesDB cuitsDB pre).processedCuits a = .new →
      ∃ r, decideBucket codesDB cuitsDB
          (classifyClients codesDB cuitsDB (pre ++ a :: mid)).processedCodes
          (classifyClients codesDB cuitsDB (pre ++ a :: mid)).processedCuits b =
          .conflicting r ∧
        (r = .codInFile b.cod_client ∨ r = .cuitInFile b.identiftri)) :=
  ⟨fun db a b h1 h2 h3 h4 h5 => pair_cuit_duplicate db a b h1 h2 h3 h4 h5,
    fun db a b h1 h2 h3 h4 => pair_cod_duplicate db a b h1 h2 h3 h4,
    fun codesDB cuitsDB pre mid a b h1 h2 h3 h4 =>
      inbatch_second_conflicts codesDB cuitsDB pre mid a b h1 h2 h3 h4⟩

/-- Witness for C5 at concrete inputs: an empty store and two candidates
sharing the CUIT, and the general conjunct on a concrete batch. -/
theorem inbatch_duplicate_first_wins_witness :
    (bucketAt
        (analyzeCodesDB []
          [⟨"AAA111", "11111111111", "R1"⟩, ⟨"BBB222", "11111111111", "R2"⟩])
        (analyzeCuitsDB []
          [⟨"AAA111", "11111111111", "R1"⟩, ⟨"BBB222", "11111111111", "R2"⟩])
        [⟨"AAA111", "11111111111", "R1"⟩, ⟨"BBB222", "11111111111", "R2"⟩] 0 =
          .new ∧
      bucketAt
        (analyzeCodesDB []
          [⟨"AAA111", "11111111111", "R1"⟩, ⟨"BBB222", "11111111111", "R2"⟩])
        (analyzeCuitsDB []
          [⟨"AAA111", "11111111111", "R1"⟩, ⟨"BBB222", "11111111111", "R2"⟩])
        [⟨"AAA111", "11111111111", "R1"⟩, ⟨"BBB222", "11111111111", "R2"⟩] 1 =
          .conflicting (.cuitInFile "11111111111")) ∧
    (bucketAt
        (analyzeCodesDB []
          [⟨"AAA111", "11111111111", "R1"⟩, ⟨"AAA111", "22222222222", "R2"⟩])
        (analyzeCuitsDB []
          [⟨"AAA111", "11111111111", "R1"⟩, ⟨"AAA111", "22222222222", "R2"⟩])
        [⟨"AAA111", "11111111111", "R1"⟩, ⟨"AAA111", "22222222222", "R2"⟩] 0 =
          .new ∧
      bucketAt
        (analyzeCodesDB []
          [⟨"AAA111", "11111111111", "R1"⟩, ⟨"AAA111", "22222222222", "R2"⟩])
        (analyzeCuitsDB []
          [⟨"AAA111", "11111111111", "R1"⟩, ⟨"AAA111", "22222222222", "R2"⟩])
        [⟨"AAA111", "11111111111", "R1"⟩, ⟨"AAA111", "22222222222", "R2"⟩] 1 =
          .conflicting (.codInFile "AAA111")) ∧
    (∃ r, decideBucket [] []
        (classifyClients [] []
          ([] ++ ⟨"AAA111", "11111111111", "R1"⟩ ::
            [⟨"CCC333", "33333333333", "R3"⟩])).processedCodes
        (classifyClients [] []
          ([] ++ ⟨"AAA111", "11111111111", "R1"⟩ ::
            [⟨"CCC333", "33333333333", "R3"⟩])).processedCuits
        ⟨"BBB222", "11111111111", "R2"⟩ = .conflicting r ∧
      (r = .codInFile "BBB222" ∨ r = .cuitInFile "11111111111")) :=
  ⟨inbatch_duplicate_first_wins.1 [] ⟨"AAA111", "11111111111", "R1"⟩
      ⟨"BBB222", "11111111111", "R2"⟩ rfl (by decide) (by decide) (by decide)
      (by decide),
    inbatch_duplicate_first_wins.2.1 [] ⟨"AAA111", "11111111111", "R1"⟩
      ⟨"AAA111", "22222222222", "R2"⟩ rfl (by decide) (by decide) (by decide),
    inbatch_duplicate_first_wins.2.2 [] [] []
      [⟨"CCC333", "33333333333", "R3"⟩] ⟨"AAA111", "11111111111", "R1"⟩
      ⟨"BBB222", "11111111111", "R2"⟩ rfl (by decide) (by decide) (by decide)⟩

/-- Witness for C1 at a concrete store and batch: a candidate whose
primary key is fresh but whose secondary key is persisted is Conflicting
with the store reason. -/
theorem analyzeClients_bucket_priority_witness :
    bucketAt
        (analyzeCodesDB [⟨"AAA111", "R", "11111111111", "u", "p"⟩]
          [⟨"BBB222", "11111111111", "R"⟩])
        (analyzeCuitsDB [⟨"AAA111", "R", "11111111111", "u", "p"⟩]
          [⟨"BBB222", "11111111111", "R"⟩])
        [⟨"BBB222", "11111111111", "R"⟩] 0 =
      specBucket [⟨"AAA111", "R", "11111111111", "u", "p"⟩]
        (classifyStateAt
          (analyzeCodesDB [⟨"AAA111", "R", "11111111111", "u", "p"⟩]
            [⟨"BBB222", "11111111111", "R"⟩])
          (analyzeCuitsDB [⟨"AAA111", "R", "11111111111", "u", "p"⟩]
            [⟨"BBB222", "11111111111", "R"⟩])
          [⟨"BBB222", "11111111111", "R"⟩] 0).newClients
        ([⟨"BBB222", "11111111111", "R"⟩].getD 0 defaultClient) ∧
    bucketAt
        (analyzeCodesDB [⟨"AAA111", "R", "11111111111", "u", "p"⟩]
          [⟨"BBB222", "11111111111", "R"⟩])
        (analyzeCuitsDB [⟨"AAA111", "R", "11111111111", "u", "p"⟩]
          [⟨"BBB222", "11111111111", "R"⟩])
        [⟨"BBB222", "11111111111", "R"⟩] 0 =
      .conflicting (.cuitInStore "11111111111") :=
  ⟨analyzeClients_bucket_priority.1 [⟨"AAA111", "R", "11111111111", "u", "p"⟩]
      [⟨"BBB222", "11111111111", "R"⟩] 0 (by decide),
    analyzeClients_bucket_priority.2 [⟨"AAA111", "R", "11111111111", "u", "p"⟩]
      [⟨"BBB222", "11111111111", "R"⟩] 0 (by decide) (by decide) (by decide)⟩

/-! ## C4: classification completeness (bucket counts sum up) -/

theorem classify_count (codesDB cuitsDB : List String) (l : List ClientRec)
    (st : ClassifyState) :
    (l.foldl (classifyStep codesDB cuitsDB) st).newClients.length +
      (l.foldl (classifyStep codesDB cuitsDB) st).currentClients.length +
      (l.foldl (classifyStep codesDB cuitsDB) st).conflictingClients.length =
    st.newClients.length + st.currentClients.length +
      st.conflictingClients.length + l.length := by
  induction l generalizing st with
  | nil => simp
  | cons c t ih =>
      rw [List.foldl_cons, ih]
      unfold classifyStep
      cases decideBucket codesDB cuitsDB st.processedCodes st.processedCuits c <;>
        simp [List.length_append] <;> omega

theorem pclassify_count (products : List StoredProduct)
    (labsMap catsMap : List (String × Nat)) (l : List RawProduct)
    (acc : PClassifyAcc) :
    (l.foldl (pClassifyStep products labsMap catsMap) acc).newProductsForFrontend.length +
      (l.foldl (pClassifyStep products labsMap catsMap) acc).currentProductsForFrontend.length +
      (l.foldl (pClassifyStep products labsMap catsMap) acc).conflictingProductsForFrontend.length +
      (l.foldl (pClassifyStep products labsMap catsMap) acc).productsWithErrors.length =
    acc.newProductsForFrontend.length + acc.currentProductsForFrontend.length +
      acc.conflictingProductsForFrontend.length + acc.productsWithErrors.length +
      l.length := by
  induction l generalizing acc with
  | nil => simp
  | cons p t ih =>
      rw [List.foldl_cons, ih]
      unfold pClassifyStep
      cases analyzeOneProduct products labsMap catsMap p <;>
        simp [List.length_append] <;> omega

/-- C4: in both domains every received candidate lands in exactly one
bucket — the reported counts sum to the batch size: for clients
New + Current + Conflicts + Invalid = Received, for products
New + Current + Conflicts + Invalid + FilteredOut = Received. -/
theorem classification_counts_complete :
    (∀ (db : List ClientDoc) (raw : List RawClient) (resp : AnalyzeResp),
      analyzeClients db raw = .ok resp →
      resp.summary.totalNew + resp.summary.totalCurrent +
        resp.summary.totalConflicts + resp.summary.totalInvalid =
        resp.summary.totalReceived) ∧
    (∀ (pdb : ProductDB) (praw : List RawProduct) (resp : PAnalyzeResp),
      analyzeProducts pdb praw = .ok resp →
      resp.summary.totalNew + resp.summary.totalCurrent +
        resp.summary.totalConflicts + resp.summary.totalInvalid +
        resp.summary.totalFilteredOut = resp.summary.totalReceived) := by
  constructor
  · intro db raw resp h
    unfold analyzeClients at h
    split at h
    · exact absurd h (by simp)
    · injection h with h2
      subst h2
      dsimp only
      have hc := classify_count
        ((clientsInDB db (validClientsOf raw)).map ClientDoc.cod_client)
        ((clientsInDB db (validClientsOf raw)).map ClientDoc.identiftri)
        (validClientsOf raw) initClassifyState
      have hpart := List.length_eq_length_filter_add
        (l := cleanedClientsOf raw)
        (fun p => (clientObjectSchemaErrors p.2).isEmpty)
      have hclen : (cleanedClientsOf raw).length = raw.length := by
        unfold cleanedClientsOf
        exact List.length_map ..
      have hvlen : (validClientsOf raw).length =
          ((cleanedClientsOf raw).filter
            (fun p => (clientObjectSchemaErrors p.2).isEmpty)).length := by
        unfold validClientsOf
        exact List.length_map ..
      have hilen : (invalidRowsOf raw).length =
          ((cleanedClientsOf raw).filter
            (fun p => !(clientObjectSchemaErrors p.2).isEmpty)).length := by
        unfold invalidRowsOf
        exact List.length_map ..
      show (clientClassifyOf db raw).newClients.length +
        (clientClassifyOf db raw).currentClients.length +
        (clientClassifyOf db raw).conflictingClients.length +
        (invalidRowsOf raw).length = raw.length
      simp only [initClassifyState, List.length_nil] at hc
      unfold clientClassifyOf classifyClients initClassifyState
      omega
  · intro pdb praw resp h
    unfold analyzeProducts at h
    split at h
    · exact absurd h (by simp)
    · split at h
      next hempty =>
        injection h with h2
        subst h2
        dsimp only
        rw [List.isEmpty_iff] at hempty
        rw [hempty]
        simp
      next hempty =>
        injection h with h2
        subst h2
        dsimp only
        have hc := pclassify_count pdb.products
          (labsMapOf pdb (productsToAnalyzeOf praw))
          (catsMapOf pdb (productsToAnalyzeOf praw))
          (productsToAnalyzeOf praw) ⟨[], [], [], [], []⟩
        have hle : (productsToAnalyzeOf praw).length ≤ praw.length := by
          unfold productsToAnalyzeOf
          exact List.length_filter_le ..
        simp only [List.length_nil] at hc
        unfold pAccOf
        omega

/-- Witness for C4 at a one-row client batch and a one-row product
batch. -/
theorem classification_counts_complete_witness :
    ((1 : Nat) + 0 + 0 + 0 = 1) ∧ ((1 : Nat) + 0 + 0 + 0 + 0 = 1) := by
  constructor
  · have h := classification_counts_complete.1 []
      [⟨.str "a1b2c3", .str "20-12345678-3", .str "r"⟩]
      { summary :=
          { totalReceived := 1, totalValid := 1, totalInvalid := 0
            totalNew := 1, totalCurrent := 0, totalConflicts := 0 }
        data :=
          { newClients := [⟨"ABC123", "20123456783", "R"⟩]
            currentClients := [], conflictingClients := [], invalidRows := [] } }
      rfl
    exact h
  · have h := classification_counts_complete.2 ⟨[("L", 1)], [("C", 2)], []⟩
      [⟨.str "P1", .str "L", .str "C", .str "d"⟩]
      { summary :=
          { totalReceived := 1, totalValid := 1, totalInvalid := 0
            totalNew := 1, totalCurrent := 0, totalConflicts := 0
            totalFilteredOut := 0 }
        newProducts := [⟨"P1", 1, 2, some (.str "d")⟩]
        currentProducts := [], conflictingProducts := [], invalidRows := []
        productsReadyForMigration := [⟨"P1", 1, 2, some (.str "d")⟩] }
      rfl
    exact h

/-! ## C10: the all-invalid client batch does not raise -/

/-- C10: a non-empty client batch in which every row fails validation
produces the normal 200 analysis report — zero valid rows, zero in
every classification bucket, every row in `invalidRows` with its
messages — because the 404 error object is built but never thrown. -/
theorem analyzeClients_all_invalid (db : List ClientDoc)
    (raw : List RawClient) (hne : raw ≠ [])
    (hinv : ∀ r ∈ raw, clientObjectSchemaErrors (cleanRawClient r) ≠ []) :
    analyzeClients db raw = .ok
      { summary :=
          { totalReceived := raw.length, totalValid := 0
            totalInvalid := raw.length, totalNew := 0
            totalCurrent := 0, totalConflicts := 0 }
        data :=
          { newClients := [], currentClients := [], conflictingClients := []
            invalidRows := raw.map
              (fun r => (r, clientObjectSchemaErrors (cleanRawClient r))) } } := by
  have hVempty : validClientsOf raw = [] := by
    unfold validClientsOf cleanedClientsOf
    have hf : (raw.map (fun r => (r, cleanRawClient r))).filter
        (fun p => (clientObjectSchemaErrors p.2).isEmpty) = [] := by
      rw [List.filter_eq_nil_iff]
      intro a ha
      rcases List.mem_map.mp ha with ⟨r, hr, rfl⟩
      rw [List.isEmpty_iff]
      exact hinv r hr
    rw [hf]
    rfl
  have hIfull : invalidRowsOf raw =
      raw.map (fun r => (r, clientObjectSchemaErrors (cleanRawClient r))) := by
    unfold invalidRowsOf cleanedClientsOf
    have hf : (raw.map (fun r => (r, cleanRawClient r))).filter
        (fun p => !(clientObjectSchemaErrors p.2).isEmpty) =
        raw.map (fun r => (r, cleanRawClient r)) := by
      rw [List.filter_eq_self]
      intro a ha
      rcases List.mem_map.mp ha with ⟨r, hr, rfl⟩
      rw [Bool.not_eq_true', ← Bool.not_eq_true, List.isEmpty_iff]
      exact hinv r hr
    rw [hf, List.map_map]
    rfl
  have hclass : clientClassifyOf db raw = initClassifyState := by
    unfold clientClassifyOf
    rw [hVempty]
    rfl
  unfold analyzeClients
  rw [if_neg (show ¬(raw.isEmpty = true) from by
    rw [List.isEmpty_iff]
    exact hne)]
  rw [hVempty, hIfull, hclass]
  simp [initClassifyState, List.length_map]

/-- Witness for C10: a one-row batch whose single row is entirely
null-valued fails validation, and the analyze call answers 200 with the
all-invalid report. -/
theorem analyzeClients_all_invalid_witness :
    analyzeClients [] [⟨.null, .null, .null⟩] = .ok
      { summary :=
          { totalReceived := 1, totalValid := 0
            totalInvalid := 1, totalNew := 0
            totalCurrent := 0, totalConflicts := 0 }
        data :=
          { newClients := [], currentClients := [], conflictingClients := []
            invalidRows := [⟨.null, .null, .null⟩].map
              (fun r => (r, clientObjectSchemaErrors (cleanRawClient r))) } } :=
  analyzeClients_all_invalid [] [⟨.null, .null, .null⟩] (by decide)
    (by decide)

/-! ## C2, C3: commit semantics over the unique-index store model -/

theorem keysClash_self (d : ClientDoc) : keysClash d d = true := by
  unfold keysClash
  simp

/-- Every document either counts as inserted or appears among the failed
ops: `nInserted + writeErrors.length = docs.length`. -/
theorem insStep_count (docs : List ClientDoc) :
    ∀ (st : List ClientDoc) (n : Nat) (errs : List ClientDoc),
    (docs.foldl insStep (st, n, errs)).2.1 +
      (docs.foldl insStep (st, n, errs)).2.2.length =
      n + errs.length + docs.length := by
  induction docs with
  | nil => intro st n errs; simp
  | cons d t ih =>
      intro st n errs
      rw [List.foldl_cons]
      by_cases h : st.any (fun r => keysClash r d)
      · have hstep : insStep (st, n, errs) d = (st, n, errs ++ [d]) := by
          unfold insStep
          rw [if_pos h]
        rw [hstep, ih]
        simp [List.length_append]
        omega
      · have hstep : insStep (st, n, errs) d = (st ++ [d], n + 1, errs) := by
          unfold insStep
          rw [if_neg h]
        rw [hstep, ih]
        simp
        omega

theorem insertMany_count (store docs : List ClientDoc) :
    (insertManyUnordered store docs).2.1 +
      (insertManyUnordered store docs).2.2.length = docs.length := by
  unfold insertManyUnordered
  rw [insStep_count]
  simp

/-- When no document clashes with the store nor with an earlier document
of the batch, the unordered bulk write inserts everything. -/
theorem insStep_all_fresh (docs : List ClientDoc) :
    ∀ (st : List ClientDoc) (n : Nat) (errs : List ClientDoc),
    (∀ d ∈ docs, ∀ r ∈ st, keysClash r d = false) →
    List.Pairwise (fun a b => keysClash a b = false) docs →
    docs.foldl insStep (st, n, errs) = (st ++ docs, n + docs.length, errs) := by
  induction docs with
  | nil => intro st n errs _ _; simp
  | cons d t ih =>
      intro st n errs hfresh hpair
      rw [List.foldl_cons]
      have hany : st.any (fun r => keysClash r d) = false := by
        rw [List.any_eq_false]
        intro r hr
        rw [hfresh d (List.mem_cons_self d t) r hr]
        exact Bool.false_ne_true
      have hstep : insStep (st, n, errs) d = (st ++ [d], n + 1, errs) := by
        unfold insStep
        rw [hany]
        rfl
      rw [hstep]
      have hfresh2 : ∀ d2 ∈ t, ∀ r ∈ st ++ [d], keysClash r d2 = false := by
        intro d2 hd2 r hr
        rcases List.mem_append.mp hr with hin | hin
        · exact hfresh d2 (List.mem_cons_of_mem d hd2) r hin
        · rw [List.mem_singleton.mp hin]
          exact (List.pairwise_cons.mp hpair).1 d2 hd2
      rw [ih (st ++ [d]) (n + 1) errs hfresh2 (List.pairwise_cons.mp hpair).2]
      simp only [List.append_assoc, List.singleton_append, Prod.mk.injEq,
        List.length_cons, and_true, true_and]
      omega

/-- When every document clashes with the store, the unordered bulk write
inserts nothing and reports every document as a failed op. -/
theorem insStep_all_dup (docs : List ClientDoc) :
    ∀ (st : List ClientDoc) (n : Nat) (errs : List ClientDoc),
    (∀ d ∈ docs, st.any (fun r => keysClash r d) = true) →
    docs.foldl insStep (st, n, errs) = (st, n, errs ++ docs) := by
  induction docs with
  | nil => intro st n errs _; simp
  | cons d t ih =>
      intro st n errs hdup
      rw [List.foldl_cons]
      have hstep : insStep (st, n, errs) d = (st, n, errs ++ [d]) := by
        unfold insStep
        rw [hdup d (List.mem_cons_self d t)]
        rfl
      rw [hstep, ih st n (errs ++ [d])
        (fun d2 hd2 => hdup d2 (List.mem_cons_of_mem d hd2))]
      simp

/-- C2: committing a duplicate-free, store-fresh New subset twice
creates every record the first time (empty duplicate list) and nothing
the second time (every record reported as a duplicate), and the store
keeps at most one row per key throughout. -/
theorem commit_idempotent (hash : String → String) (store : List ClientDoc)
    (newClients : List ClientRec) (hne : newClients ≠ [])
    (hpair : List.Pairwise (fun a b => keysClash a b = false)
      (clientsToCreateOf hash newClients))
    (hfresh : ∀ d ∈ clientsToCreateOf hash newClients, ∀ r ∈ store,
      keysClash r d = false)
    (hstoreU : List.Pairwise (fun a b => keysClash a b = false) store) :
    confirmClientMigration hash store newClients =
      .ok (⟨newClients.length, []⟩,
        store ++ clientsToCreateOf hash newClients) ∧
    confirmClientMigration hash (store ++ clientsToCreateOf hash newClients)
        newClients =
      .ok (⟨0, newClients⟩, store ++ clientsToCreateOf hash newClients) ∧
    List.Pairwise (fun a b => keysClash a b = false)
      (store ++ clientsToCreateOf hash newClients) := by
  have hdocs_ne : clientsToCreateOf hash newClients ≠ [] := by
    unfold clientsToCreateOf
    simp [hne]
  have hrun1 : insertManyUnordered store (clientsToCreateOf hash newClients) =
      (store ++ clientsToCreateOf hash newClients,
        0 + (clientsToCreateOf hash newClients).length, []) := by
    unfold insertManyUnordered
    exact insStep_all_fresh (clientsToCreateOf hash newClients) store 0 []
      hfresh hpair
  have hrun2 : insertManyUnordered
      (store ++ clientsToCreateOf hash newClients)
      (clientsToCreateOf hash newClients) =
      (store ++ clientsToCreateOf hash newClients, 0,
        [] ++ clientsToCreateOf hash newClients) := by
    unfold insertManyUnordered
    apply insStep_all_dup
    intro d hd
    rw [List.any_eq_true]
    exact ⟨d, List.mem_append_right store hd, keysClash_self d⟩
  have hne2 : ¬(newClients.isEmpty = true) := by
    rw [List.isEmpty_iff]
    exact hne
  have hmapkeys : (clientsToCreateOf hash newClients).map docToKeys =
      newClients := by
    unfold clientsToCreateOf
    rw [List.map_map]
    have h2 : (docToKeys ∘ clientToDoc hash) = fun c => c :=
      funext (fun c => rfl)
    rw [h2]
    exact List.map_id' newClients
  refine ⟨?_, ?_, ?_⟩
  · unfold confirmClientMigration insertManyOutcome
    rw [if_neg hne2, hrun1]
    have hlen : (clientsToCreateOf hash newClients).length =
        newClients.length := by
      unfold clientsToCreateOf
      exact List.length_map ..
    change Except.ok
        ((⟨(clientsToCreateOf hash newClients).length,
          ([] : List ClientRec)⟩ : CommitResp),
          store ++ clientsToCreateOf hash newClients) =
      Except.ok
        ((⟨newClients.length, ([] : List ClientRec)⟩ : CommitResp),
          store ++ clientsToCreateOf hash newClients)
    rw [hlen]
  · unfold confirmClientMigration insertManyOutcome
    rw [if_neg hne2, hrun2]
    rw [if_neg (show ¬(((([] : List ClientDoc)) ++
        clientsToCreateOf hash newClients).isEmpty = true) from by
      rw [List.isEmpty_iff, List.nil_append]
      exact hdocs_ne)]
    change Except.ok
        ((⟨0, ((([] : List ClientDoc)) ++
          clientsToCreateOf hash newClients).map docToKeys⟩ : CommitResp),
          store ++ clientsToCreateOf hash newClients) =
      Except.ok ((⟨0, newClients⟩ : CommitResp),
        store ++ clientsToCreateOf hash newClients)
    rw [List.nil_append, hmapkeys]
  · rw [List.pairwise_append]
    exact ⟨hstoreU, hpair, fun a ha b hb => hfresh b hb a ha⟩

/-- Witness for C2: two fresh clients committed twice onto an empty
store. -/
theorem commit_idempotent_witness :
    confirmClientMigration id []
        [⟨"AAA111", "11111111111", "R1"⟩, ⟨"BBB222", "22222222222", "R2"⟩] =
      .ok (⟨2, []⟩,
        [] ++ clientsToCreateOf id
          [⟨"AAA111", "11111111111", "R1"⟩, ⟨"BBB222", "22222222222", "R2"⟩]) ∧
    confirmClientMigration id
        ([] ++ clientsToCreateOf id
          [⟨"AAA111", "11111111111", "R1"⟩, ⟨"BBB222", "22222222222", "R2"⟩])
        [⟨"AAA111", "11111111111", "R1"⟩, ⟨"BBB222", "22222222222", "R2"⟩] =
      .ok (⟨0, [⟨"AAA111", "11111111111", "R1"⟩, ⟨"BBB222", "22222222222", "R2"⟩]⟩,
        [] ++ clientsToCreateOf id
          [⟨"AAA111", "11111111111", "R1"⟩, ⟨"BBB222", "22222222222", "R2"⟩]) ∧
    List.Pairwise (fun a b => keysClash a b = false)
      ([] ++ clientsToCreateOf id
        [⟨"AAA111", "11111111111", "R1"⟩, ⟨"BBB222", "22222222222", "R2"⟩]) :=
  commit_idempotent id []
    [⟨"AAA111", "11111111111", "R1"⟩, ⟨"BBB222", "22222222222", "R2"⟩]
    (by decide) (by decide) (by decide) (by decide)

/-- C3: past the empty-batch guard the commit always answers 201 — the
created count is exactly the store-reported insert count and the
duplicate list is exactly the store-reported failed ops with their keys;
and an insert outcome that is not a duplicate-key error is re-thrown. -/
theorem commit_partial_failure :
    (∀ (hash : String → String) (store : List ClientDoc)
      (newClients : List ClientRec), newClients ≠ [] →
      confirmClientMigration hash store newClients =
        .ok
          (⟨(insertManyUnordered store (clientsToCreateOf hash newClients)).2.1,
            ((insertManyUnordered store
              (clientsToCreateOf hash newClients)).2.2).map docToKeys⟩,
            (insertManyUnordered store (clientsToCreateOf hash newClients)).1)) ∧
    (∀ (docs : List ClientDoc) (e : MErr),
      confirmDispatch docs (.failure e) = .error e) := by
  constructor
  · intro hash store newClients hne
    have hne2 : ¬(newClients.isEmpty = true) := by
      rw [List.isEmpty_iff]
      exact hne
    unfold confirmClientMigration insertManyOutcome
    rw [if_neg hne2]
    by_cases herr : (insertManyUnordered store
        (clientsToCreateOf hash newClients)).2.2.isEmpty
    · have hnil : (insertManyUnordered store
          (clientsToCreateOf hash newClients)).2.2 = [] :=
        List.isEmpty_iff.mp herr
      have hcnt := insertMany_count store (clientsToCreateOf hash newClients)
      rw [hnil] at hcnt
      have hn : (insertManyUnordered store
          (clientsToCreateOf hash newClients)).2.1 =
          (clientsToCreateOf hash newClients).length := by
        simpa using hcnt
      rw [if_pos herr, hnil, hn]
      rfl
    · rw [if_neg herr]
      rfl
  · intro docs e
    rfl

/-- Witness for C3: a batch of 10 records of which exactly one collides
with a persisted row yields `createdCount = 9` and a single rejected
record, and a non-duplicate store failure propagates. -/
theorem commit_partial_failure_witness :
    confirmClientMigration id [⟨"SSS", "RS", "0", "0", "p"⟩]
        [⟨"C1", "1", "R"⟩, ⟨"C2", "2", "R"⟩, ⟨"C3", "3", "R"⟩,
         ⟨"C4", "4", "R"⟩, ⟨"C5", "5", "R"⟩, ⟨"C6", "6", "R"⟩,
         ⟨"C7", "7", "R"⟩, ⟨"C8", "8", "R"⟩, ⟨"C9", "9", "R"⟩,
         ⟨"C10", "0", "R"⟩] =
      .ok
        (⟨(insertManyUnordered [⟨"SSS", "RS", "0", "0", "p"⟩]
            (clientsToCreateOf id
              [⟨"C1", "1", "R"⟩, ⟨"C2", "2", "R"⟩, ⟨"C3", "3", "R"⟩,
               ⟨"C4", "4", "R"⟩, ⟨"C5", "5", "R"⟩, ⟨"C6", "6", "R"⟩,
               ⟨"C7", "7", "R"⟩, ⟨"C8", "8", "R"⟩, ⟨"C9", "9", "R"⟩,
               ⟨"C10", "0", "R"⟩])).2.1,
          ((insertManyUnordered [⟨"SSS", "RS", "0", "0", "p"⟩]
            (clientsToCreateOf id
              [⟨"C1", "1", "R"⟩, ⟨"C2", "2", "R"⟩, ⟨"C3", "3", "R"⟩,
               ⟨"C4", "4", "R"⟩, ⟨"C5", "5", "R"⟩, ⟨"C6", "6", "R"⟩,
               ⟨"C7", "7", "R"⟩, ⟨"C8", "8", "R"⟩, ⟨"C9", "9", "R"⟩,
               ⟨"C10", "0", "R"⟩])).2.2).map docToKeys⟩,
          (insertManyUnordered [⟨"SSS", "RS", "0", "0", "p"⟩]
            (clientsToCreateOf id
              [⟨"C1", "1", "R"⟩, ⟨"C2", "2", "R"⟩, ⟨"C3", "3", "R"⟩,
               ⟨"C4", "4", "R"⟩, ⟨"C5", "5", "R"⟩, ⟨"C6", "6", "R"⟩,
               ⟨"C7", "7", "R"⟩, ⟨"C8", "8", "R"⟩, ⟨"C9", "9", "R"⟩,
               ⟨"C10", "0", "R"⟩])).1) ∧
    (insertManyUnordered [⟨"SSS", "RS", "0", "0", "p"⟩]
        (clientsToCreateOf id
          [⟨"C1", "1", "R"⟩, ⟨"C2", "2", "R"⟩, ⟨"C3", "3", "R"⟩,
           ⟨"C4", "4", "R"⟩, ⟨"C5", "5", "R"⟩, ⟨"C6", "6", "R"⟩,
           ⟨"C7", "7", "R"⟩, ⟨"C8", "8", "R"⟩, ⟨"C9", "9", "R"⟩,
           ⟨"C10", "0", "R"⟩])).2.1 = 9 ∧
    ((insertManyUnordered [⟨"SSS", "RS", "0", "0", "p"⟩]
        (clientsToCreateOf id
          [⟨"C1", "1", "R"⟩, ⟨"C2", "2", "R"⟩, ⟨"C3", "3", "R"⟩,
           ⟨"C4", "4", "R"⟩, ⟨"C5", "5", "R"⟩, ⟨"C6", "6", "R"⟩,
           ⟨"C7", "7", "R"⟩, ⟨"C8", "8", "R"⟩, ⟨"C9", "9", "R"⟩,
           ⟨"C10", "0", "R"⟩])).2.2).length = 1 ∧
    confirmDispatch [] (.failure (.storeFailure "socket closed")) =
      .error (.storeFailure "socket closed") :=
  ⟨commit_partial_failure.1 id [⟨"SSS", "RS", "0", "0", "p"⟩]
      [⟨"C1", "1", "R"⟩, ⟨"C2", "2", "R"⟩, ⟨"C3", "3", "R"⟩,
       ⟨"C4", "4", "R"⟩, ⟨"C5", "5", "R"⟩, ⟨"C6", "6", "R"⟩,
       ⟨"C7", "7", "R"⟩, ⟨"C8", "8", "R"⟩, ⟨"C9", "9", "R"⟩,
       ⟨"C10", "0", "R"⟩] (by decide),
    by decide, by decide,
    commit_partial_failure.2 [] (.storeFailure "socket closed")⟩

/-! ## C6: store round-trip counts -/

/-- C6 counterexample: in the product domain neither phase is a single
round-trip. A two-row batch over a store already holding its lab and
category performs 4 store calls during analysis (one lab lookup, one
category lookup, one product lookup per row), and a two-record commit
performs 2 single-document saves. -/
theorem product_roundtrips_counterexample :
    (analyzeProductsOps ⟨[("L", 1)], [("C", 2)], []⟩
      [⟨.str "P1", .str "L", .str "C", .str "d"⟩,
       ⟨.str "P2", .str "L", .str "C", .str "d"⟩]).length = 4 ∧
    (confirmProductMigrationOps
      [⟨"P1", some 1, some 2, some (.str "d")⟩,
       ⟨"P2", some 1, some 2, some (.str "d")⟩]).length = 2 := by
  constructor <;> rfl

/-- C6 (amended): in the client domain the claim holds — for every
non-empty batch, analyze performs exactly one store round-trip (the
single `$or` find) and commit exactly one (the single bulk insert),
whatever the batch size. -/
theorem client_single_roundtrip :
    (∀ rawClients : List RawClient, rawClients ≠ [] →
      (analyzeClientsOps rawClients).length = 1) ∧
    (∀ newClients : List ClientRec, newClients ≠ [] →
      (confirmClientMigrationOps newClients).length = 1) := by
  constructor
  · intro raw hne
    unfold analyzeClientsOps
    rw [if_neg (show ¬(raw.isEmpty = true) from by
      rw [List.isEmpty_iff]
      exact hne)]
    rfl
  · intro batch hne
    unfold confirmClientMigrationOps
    rw [if_neg (show ¬(batch.isEmpty = true) from by
      rw [List.isEmpty_iff]
      exact hne)]
    rfl

/-- Witness for the amended C6 theorem on three-element batches. -/
theorem client_single_roundtrip_witness :
    (analyzeClientsOps
      [⟨.str "a", .str "1", .str "r"⟩, ⟨.str "b", .str "2", .str "r"⟩,
       ⟨.str "c", .str "3", .str "r"⟩]).length = 1 ∧
    (confirmClientMigrationOps
      [⟨"AAA111", "11111111111", "R1"⟩, ⟨"BBB222", "22222222222", "R2"⟩,
       ⟨"CCC333", "33333333333", "R3"⟩]).length = 1 :=
  ⟨client_single_roundtrip.1
      [⟨.str "a", .str "1", .str "r"⟩, ⟨.str "b", .str "2", .str "r"⟩,
       ⟨.str "c", .str "3", .str "r"⟩] (by decide),
    client_single_roundtrip.2
      [⟨"AAA111", "11111111111", "R1"⟩, ⟨"BBB222", "22222222222", "R2"⟩,
       ⟨"CCC333", "33333333333", "R3"⟩] (by decide)⟩

/-! ## C7: Current versus Conflicting on a store hit, per domain -/

/-- C7: in the product domain a code hit is Current exactly when the
persisted description, lab reference and category reference all equal
the candidate values, and Conflicting exactly otherwise; in the client
domain a primary-key store hit is Current unconditionally, with no
payload comparison. -/
theorem store_hit_current_vs_conflicting :
    (∀ (products : List StoredProduct) (labsMap catsMap : List (String × Nat))
      (p : RawProduct) (labId catId : Nat) (ex : StoredProduct),
      jsTrim (jsString (if jsFalsy p.code then .str "" else p.code)) ≠ "" →
      lookupName labsMap (normalizeName p.lab) = some labId →
      lookupName catsMap (normalizeName p.category) = some catId →
      jsFalsy p.desc = false →
      products.find? (fun sp => sp.code ==
        jsTrim (jsString (if jsFalsy p.code then .str "" else p.code))) =
        some ex →
      (analyzeOneProduct products labsMap catsMap p = .current ↔
        (ex.desc = some p.desc ∧ ex.lab = labId ∧ ex.category = catId)) ∧
      (analyzeOneProduct products labsMap catsMap p = .conflicting ↔
        ¬(ex.desc = some p.desc ∧ ex.lab = labId ∧ ex.category = catId))) ∧
    (∀ (codesDB cuitsDB processedCodes processedCuits : List String)
      (c : ClientRec), c.cod_client ∈ codesDB →
      decideBucket codesDB cuitsDB processedCodes processedCuits c =
        .current) := by
  constructor
  · intro products labsMap catsMap p labId catId ex hcode hlab hcat hdesc hfind
    unfold analyzeOneProduct
    rw [if_neg hcode, hlab, hcat, hdesc, hfind]
    show ((if ex.desc ≠ some p.desc ∨ ex.lab ≠ labId ∨ ex.category ≠ catId
        then PBucket.conflicting else PBucket.current) = .current ↔ _) ∧
      ((if ex.desc ≠ some p.desc ∨ ex.lab ≠ labId ∨ ex.category ≠ catId
        then PBucket.conflicting else PBucket.current) = .conflicting ↔ _)
    by_cases hD : ex.desc ≠ some p.desc ∨ ex.lab ≠ labId ∨ ex.category ≠ catId
    · rw [if_pos hD]
      have hnc : ¬(ex.desc = some p.desc ∧ ex.lab = labId ∧
          ex.category = catId) := by
        intro hc
        rcases hD with h | h | h
        · exact h hc.1
        · exact h hc.2.1
        · exact h hc.2.2
      exact ⟨⟨fun h => PBucket.noConfusion h, fun h => absurd h hnc⟩,
        ⟨fun _ => hnc, fun _ => rfl⟩⟩
    · rw [if_neg hD]
      push_neg at hD
      exact ⟨⟨fun _ => ⟨hD.1, hD.2.1, hD.2.2⟩, fun _ => rfl⟩,
        ⟨fun h => PBucket.noConfusion h,
          fun h => absurd ⟨hD.1, hD.2.1, hD.2.2⟩ h⟩⟩
  · intro codesDB cuitsDB processedCodes processedCuits c hmem
    unfold decideBucket
    rw [if_pos hmem]

/-- Witness for C7: a persisted product with a differing description is
Conflicting (and not Current), and a client primary-key store hit is
Current. -/
theorem store_hit_current_vs_conflicting_witness :
    ((analyzeOneProduct [⟨"P1", some (.str "d"), 1, 2⟩] [("L", 1)] [("C", 2)]
        ⟨.str "P1", .str "L", .str "C", .str "other"⟩ = .current ↔
      ((some (.str "d") : Option JSVal) = some (.str "other") ∧
        (1 : Nat) = 1 ∧ (2 : Nat) = 2)) ∧
    (analyzeOneProduct [⟨"P1", some (.str "d"), 1, 2⟩] [("L", 1)] [("C", 2)]
        ⟨.str "P1", .str "L", .str "C", .str "other"⟩ = .conflicting ↔
      ¬((some (.str "d") : Option JSVal) = some (.str "other") ∧
        (1 : Nat) = 1 ∧ (2 : Nat) = 2))) ∧
    decideBucket ["ABC123"] [] [] [] ⟨"ABC123", "11111111111", "R"⟩ =
      .current :=
  ⟨store_hit_current_vs_conflicting.1 [⟨"P1", some (.str "d"), 1, 2⟩]
      [("L", 1)] [("C", 2)] ⟨.str "P1", .str "L", .str "C", .str "other"⟩
      1 2 ⟨"P1", some (.str "d"), 1, 2⟩ (by decide) (by decide) (by decide)
      rfl (by decide),
    store_hit_current_vs_conflicting.2 ["ABC123"] [] [] []
      ⟨"ABC123", "11111111111", "R"⟩ (by decide)⟩

end Medinor
